import Mathlib

/-!
Shallow embedding of the MedExplain-AI core analysis engine
(`backend/services/medical_analyzer.py`, class `MedicalAnalyzer`) and proofs
about its four core operations: lab-result categorization, health scoring,
risk detection and trend analysis.

Modelling conventions:
* Python numbers are modelled by `ℚ` (exact arithmetic).
* Python dicts are modelled by association lists `List (String × _)`;
  membership tests and `d[k]` / `d.get(k, default)` become `List.lookup`.
* Fallible code (Python exceptions) is modelled with `Except String`:
  `ZeroDivisionError` for division by zero, `NameError` for the use of an
  unassigned local variable.
* `datetime.now().isoformat()` is modelled by an explicit `now : String`
  argument threaded to each operation that reads the clock.
* Python's `round(x, n)` (round-half-to-even) is modelled exactly on `ℚ`
  by `pyRound`.
* Numeric display formatting inside f-strings is abstracted by `fmtQ`.
-/

namespace MedicalAnalyzer

instance {ε α : Type} [DecidableEq ε] [DecidableEq α] : DecidableEq (Except ε α) :=
  fun a b =>
    match a, b with
    | .error x, .error y =>
      if h : x = y then .isTrue (by rw [h]) else .isFalse (by simp [h])
    | .ok x, .ok y =>
      if h : x = y then .isTrue (by rw [h]) else .isFalse (by simp [h])
    | .error _, .ok _ => .isFalse (by simp)
    | .ok _, .error _ => .isFalse (by simp)

/-- Rational addition computed on numerators and denominators. The standard
`Rat.add` is irreducible, which blocks kernel evaluation of concrete runs;
this computable form is proved equal to `+` in `qadd_eq`. -/
def qadd (a b : ℚ) : ℚ := Rat.divInt (a.num * b.den + b.num * a.den) (a.den * b.den)

/-- Rational subtraction computed on numerators and denominators
(see `qadd`); proved equal to `-` in `qsub_eq`. -/
def qsub (a b : ℚ) : ℚ := Rat.divInt (a.num * b.den - b.num * a.den) (a.den * b.den)

/-- Rational multiplication computed on numerators and denominators
(see `qadd`); proved equal to `*` in `qmul_eq`. -/
def qmul (a b : ℚ) : ℚ := Rat.divInt (a.num * b.num) (a.den * b.den)

/-- Rational division computed on numerators and denominators (0 on a zero
divisor, see `qadd`); proved equal to `/` in `qdiv_eq`. -/
def qdiv (a b : ℚ) : ℚ := Rat.divInt (a.num * b.den) (a.den * b.num)

/-- Result of Python division, raising `ZeroDivisionError` on a zero divisor. -/
def pyDiv (a b : ℚ) : Except String ℚ :=
  if b = 0 then .error "ZeroDivisionError" else .ok (qdiv a b)

/-- Round half to even (banker's rounding) to an integer, as Python `round`. -/
def roundHalfEven (x : ℚ) : ℤ :=
  let f := ⌊x⌋
  let r := qsub x (f : ℚ)
  if r < Rat.divInt 1 2 then f
  else if Rat.divInt 1 2 < r then f + 1
  else if f % 2 = 0 then f else f + 1

/-- Python `round(x, d)`: round half to even at `d` decimal places. -/
def pyRound (x : ℚ) (d : ℕ) : ℚ :=
  qdiv (roundHalfEven (qmul x ((10 ^ d : ℕ) : ℚ)) : ℚ) ((10 ^ d : ℕ) : ℚ)

/-- Lexicographic comparison of code-point lists, as Python string `<`. -/
def strLtAux : List Char → List Char → Bool
  | _, [] => false
  | [], _ :: _ => true
  | a :: as, b :: bs =>
    if a.toNat < b.toNat then true
    else if b.toNat < a.toNat then false
    else strLtAux as bs

/-- Python string `<`: lexicographic comparison by code point. The standard
`String.decidableLT` goes through iterator functions that do not reduce, so
the model uses this explicit recursion. -/
def strLt (a b : String) : Bool := strLtAux a.data b.data

/-- Display formatting of a number inside an f-string (abstracted). -/
def fmtQ (q : ℚ) : String := toString q

/-- One entry of `self.reference_ranges`: `{min, max, unit, category}`. -/
structure RefRange where
  min : ℚ
  max : ℚ
  unit : String
  category : String
deriving DecidableEq

/-- The static reference-range table `self.reference_ranges`. -/
def reference_ranges : List (String × RefRange) :=
  [("glucose", ⟨70, 100, "mg/dL", "Metabolic"⟩),
   ("hba1c", ⟨4, Rat.divInt 28 5, "%", "Metabolic"⟩),
   ("cholesterol", ⟨125, 200, "mg/dL", "Cardiovascular"⟩),
   ("ldl", ⟨0, 100, "mg/dL", "Cardiovascular"⟩),
   ("hdl", ⟨40, 60, "mg/dL", "Cardiovascular"⟩),
   ("triglycerides", ⟨0, 150, "mg/dL", "Cardiovascular"⟩),
   ("creatinine", ⟨Rat.divInt 3 5, Rat.divInt 6 5, "mg/dL", "Renal"⟩),
   ("bun", ⟨7, 20, "mg/dL", "Renal"⟩),
   ("sodium", ⟨135, 145, "mmol/L", "Electrolytes"⟩),
   ("potassium", ⟨Rat.divInt 7 2, 5, "mmol/L", "Electrolytes"⟩),
   ("wbc", ⟨Rat.divInt 9 2, 11, "10^3/uL", "Hematology"⟩),
   ("hemoglobin", ⟨Rat.divInt 27 2, Rat.divInt 35 2, "g/dL", "Hematology"⟩),
   ("platelets", ⟨150, 450, "10^3/uL", "Hematology"⟩)]

/-- The table `self.status_colors`: status → (color, text). -/
def status_colors : List (String × String × String) :=
  [("normal", ("#10B981", "Normal")),
   ("borderline", ("#F59E0B", "Borderline")),
   ("critical", ("#EF4444", "Critical")),
   ("warning", ("#F97316", "Warning")),
   ("good", ("#3B82F6", "Good"))]

/-- `_get_status_below`: tier for a value below the reference minimum. -/
def get_status_below (min_val actual : ℚ) : Except String String := do
  let d ← pyDiv (qsub min_val actual) min_val
  let deviation := qmul d 100
  if 30 < deviation then pure "critical"
  else if 15 < deviation then pure "warning"
  else pure "borderline"

/-- `_get_status_above`: tier for a value above the reference maximum. -/
def get_status_above (max_val actual : ℚ) : Except String String := do
  let d ← pyDiv (qsub actual max_val) max_val
  let deviation := qmul d 100
  if 30 < deviation then pure "critical"
  else if 15 < deviation then pure "warning"
  else pure "borderline"

/-- The per-test interpretation text table of `_get_interpretation`. -/
def interpretations : List (String × List (String × String)) :=
  [("glucose",
    [("normal", "Normal fasting blood glucose level."),
     ("borderline", "Slightly elevated blood glucose. Monitor diet."),
     ("warning", "High blood glucose. May indicate prediabetes."),
     ("critical", "Very high blood glucose. Possible diabetes.")]),
   ("hba1c",
    [("normal", "Good long-term blood sugar control."),
     ("borderline", "Moderate blood sugar control. Lifestyle changes recommended."),
     ("warning", "Poor blood sugar control. May indicate diabetes."),
     ("critical", "Very poor blood sugar control. Diabetes likely.")]),
   ("ldl",
    [("normal", "Optimal LDL cholesterol level."),
     ("borderline", "Borderline high LDL cholesterol."),
     ("warning", "High LDL cholesterol. Increased heart disease risk."),
     ("critical", "Very high LDL cholesterol. High heart disease risk.")]),
   ("hdl",
    [("normal", "Good HDL cholesterol level."),
     ("borderline", "Borderline low HDL cholesterol."),
     ("warning", "Low HDL cholesterol. Increased heart disease risk."),
     ("critical", "Very low HDL cholesterol. High heart disease risk.")]),
   ("creatinine",
    [("normal", "Normal kidney function."),
     ("borderline", "Slightly elevated creatinine. Monitor kidney function."),
     ("warning", "High creatinine. Possible kidney impairment."),
     ("critical", "Very high creatinine. Kidney dysfunction likely.")])]

/-- `_get_interpretation`: interpretation text for a test and status. -/
def get_interpretation (test_name : String) (_value : ℚ) (status : String) : String :=
  match (interpretations.lookup test_name).bind (fun t => t.lookup status) with
  | some s => s
  | none => "Value is " ++ status ++ " compared to reference range."

/-- One value of the dict built per test by `categorize_lab_results`. -/
structure CategorizedResult where
  value : ℚ
  unit : String
  category : String
  status : String
  color : String
  status_text : String
  min_reference : ℚ
  max_reference : ℚ
  deviation_percent : ℚ
  interpretation : String
deriving DecidableEq

/-- The deviation/status computation of the `categorize_lab_results` loop:
the three-way comparison of the value against the reference range. -/
def devStatus (ref : RefRange) (test_value : ℚ) : Except String (ℚ × String) :=
  if test_value < ref.min then do
    let d ← pyDiv (qsub ref.min test_value) ref.min
    let s ← get_status_below ref.min test_value
    pure (qmul d 100, s)
  else if ref.max < test_value then do
    let d ← pyDiv (qsub test_value ref.max) ref.max
    let s ← get_status_above ref.max test_value
    pure (qmul d 100, s)
  else pure ((0 : ℚ), "normal")

/-- The dict stored in `categorized[test_name]`, from the computed deviation
and status pair `ds`. -/
def mkCategorized (test_name : String) (ref : RefRange) (test_value : ℚ)
    (ds : ℚ × String) : CategorizedResult :=
  { value := test_value
    unit := ref.unit
    category := ref.category
    status := ds.2
    color := ((status_colors.lookup ds.2).map Prod.fst).getD "#6B7280"
    status_text := ((status_colors.lookup ds.2).map Prod.snd).getD "Unknown"
    min_reference := ref.min
    max_reference := ref.max
    deviation_percent := pyRound ds.1 2
    interpretation := get_interpretation test_name test_value ds.2 }

/-- The body of the `categorize_lab_results` loop for a single
`(test_name, test_value)` entry: `none` when the test has no reference range
(the entry is skipped), otherwise the computed `CategorizedResult` or a
propagated `ZeroDivisionError`. -/
def categorizeOne (test_name : String) (test_value : ℚ) :
    Option (Except String CategorizedResult) :=
  match reference_ranges.lookup test_name with
  | none => none
  | some ref => some ((devStatus ref test_value).map (mkCategorized test_name ref test_value))

/-- `categorize_lab_results`: iterate the snapshot, skip unknown tests,
propagate the first exception. -/
def categorize_lab_results (lab_data : List (String × ℚ)) :
    Except String (List (String × CategorizedResult)) :=
  match lab_data with
  | [] => .ok []
  | (n, v) :: rest =>
    match categorizeOne n v with
    | none => categorize_lab_results rest
    | some (.error e) => .error e
    | some (.ok r) => (categorize_lab_results rest).map (fun m => (n, r) :: m)

/-- Result of `calculate_health_score`: either the sentinel dict
`{"score": 0, "status": "Insufficient Data"}` returned for an empty snapshot,
or the full report dict. -/
inductive HealthScoreResult where
  | insufficient (score : ℚ) (status : String)
  | report (score : ℚ) (status : String) (status_color : String)
      (category_breakdown : List (String × CategorizedResult))
      (calculated_at : String)
deriving DecidableEq

/-- The `status_points` table of `calculate_health_score`. -/
def status_points : List (String × ℚ) :=
  [("normal", 100), ("good", 90), ("borderline", 70), ("warning", 40), ("critical", 10)]

/-- The category `weights` table of `calculate_health_score`. -/
def weights : List (String × ℚ) :=
  [("Metabolic", Rat.divInt 3 10), ("Cardiovascular", Rat.divInt 3 10),
   ("Renal", Rat.divInt 1 5), ("Hematology", Rat.divInt 1 10),
   ("Electrolytes", Rat.divInt 1 10)]

/-- Contribution of one categorized entry to the score accumulators:
`(points × weight, weight)`, or `none` when the status has no point value. -/
def scoreContrib (data : CategorizedResult) : Option (ℚ × ℚ) :=
  match status_points.lookup data.status with
  | some pts => some (qmul pts ((weights.lookup data.category).getD (Rat.divInt 1 10)),
                      (weights.lookup data.category).getD (Rat.divInt 1 10))
  | none => none

/-- `calculate_health_score`: weighted 0-100 score over the categorized
snapshot, with the sentinel for a (literally) empty snapshot, and the
clock reading `now` stored in `calculated_at`. -/
def calculate_health_score (now : String) (lab_data : List (String × ℚ)) :
    Except String HealthScoreResult :=
  if lab_data = [] then .ok (.insufficient 0 "Insufficient Data")
  else
    match categorize_lab_results lab_data with
    | .error e => .error e
    | .ok categorized =>
      let contribs := categorized.filterMap (fun p => scoreContrib p.2)
      let scores := contribs.map Prod.fst
      let total_weight := (contribs.map Prod.snd).foldl qadd 0
      let avg_score := if scores ≠ [] ∧ 0 < total_weight
                       then qdiv (scores.foldl qadd 0) total_weight else 0
      let hs : String × String :=
        if 85 ≤ avg_score then ("Excellent", "#10B981")
        else if 70 ≤ avg_score then ("Good", "#3B82F6")
        else if 50 ≤ avg_score then ("Fair", "#F59E0B")
        else ("Needs Attention", "#EF4444")
      .ok (.report (pyRound avg_score 1) hs.1 hs.2 categorized now)

/-- One element of the `risks` list built by `detect_risk_factors`. -/
structure RiskFinding where
  condition : String
  risk_level : String
  indicators : List String
  recommendations : List String
deriving DecidableEq

/-- The dict returned by `detect_risk_factors`. -/
structure RiskReport where
  detected_risks : List RiskFinding
  total_risks : ℕ
  highest_risk : String
  analyzed_at : String
deriving DecidableEq

/-- The diabetes check of `detect_risk_factors`. -/
def diabetesRisk (lab_data : List (String × ℚ)) : Option RiskFinding :=
  match lab_data.lookup "hba1c" with
  | some v =>
    if Rat.divInt 57 10 ≤ v then
      some { condition := "Diabetes"
             risk_level := if Rat.divInt 13 2 ≤ v then "high" else "moderate"
             indicators := ["HbA1c: " ++ fmtQ v ++ "%"]
             recommendations := ["Consult endocrinologist",
                                 "Monitor blood sugar regularly",
                                 "Diet and exercise changes"] }
    else none
  | none => none

/-- The `cv_indicators` list of the cardiovascular check, in source order
(ldl, triglycerides, hdl). -/
def cvIndicators (lab_data : List (String × ℚ)) : List String :=
  (match lab_data.lookup "ldl" with
   | some v => if 130 < v then ["LDL: " ++ fmtQ v ++ " mg/dL"] else []
   | none => []) ++
  (match lab_data.lookup "triglycerides" with
   | some v => if 150 < v then ["Triglycerides: " ++ fmtQ v ++ " mg/dL"] else []
   | none => []) ++
  (match lab_data.lookup "hdl" with
   | some v => if v < 40 then ["HDL: " ++ fmtQ v ++ " mg/dL"] else []
   | none => [])

/-- The cardiovascular check of `detect_risk_factors`: triggered exactly when
some indicator fired (`cardiovascular_risk` flag). -/
def cardioRisk (lab_data : List (String × ℚ)) : Option RiskFinding :=
  if cvIndicators lab_data = [] then none
  else
    some { condition := "Cardiovascular Disease"
           risk_level := "moderate"
           indicators := cvIndicators lab_data
           recommendations := ["Cardiology consultation", "Heart-healthy diet",
                               "Regular exercise", "Cholesterol management"] }

/-- The kidney-disease check of `detect_risk_factors`. -/
def kidneyRisk (lab_data : List (String × ℚ)) : Option RiskFinding :=
  match lab_data.lookup "creatinine" with
  | some v =>
    if Rat.divInt 6 5 < v then
      some { condition := "Kidney Disease"
             risk_level := if v ≤ 2 then "moderate" else "high"
             indicators := ["Creatinine: " ++ fmtQ v ++ " mg/dL"]
             recommendations := ["Nephrology consultation", "Monitor kidney function",
                                 "Stay hydrated", "Avoid NSAIDs"] }
    else none
  | none => none

/-- The `risks` list of `detect_risk_factors` after the three condition
checks, before age adjustment. -/
def baseRisks (lab_data : List (String × ℚ)) : List RiskFinding :=
  (diabetesRisk lab_data).toList ++ (cardioRisk lab_data).toList ++
    (kidneyRisk lab_data).toList

/-- The extra recommendation appended by the age adjustment. -/
def ageMsg : String := "Age increases risk - more frequent monitoring needed"

/-- The in-place mutation of one finding by the age-adjustment loop. -/
def escalateIfModerate (f : RiskFinding) : RiskFinding :=
  if f.risk_level = "moderate" then
    { f with risk_level := "high", recommendations := f.recommendations ++ [ageMsg] }
  else f

/-- Python `max(iterable, default)` over strings: lexicographic string
comparison, keeping the earlier element on ties. -/
def pyMax (l : List String) (dflt : String) : String :=
  match l with
  | [] => dflt
  | x :: xs => xs.foldl (fun acc y => if strLt acc y then y else acc) x

/-- `detect_risk_factors`: three condition checks, age adjustment for
`patient_age > 60`, and the summary dict. `highest_risk` is Python
`max(..., default="low")` over the risk-level strings. -/
def detect_risk_factors (now : String) (lab_data : List (String × ℚ))
    (patient_age : ℤ) : RiskReport :=
  let risks := if 60 < patient_age then (baseRisks lab_data).map escalateIfModerate
               else baseRisks lab_data
  { detected_risks := risks
    total_risks := risks.length
    highest_risk := pyMax (risks.map (·.risk_level)) "low"
    analyzed_at := now }

/-- A JSON-ish value occurring in a historical record: a number or a string.
Only these two shapes occur in the inputs the analyzer inspects. -/
inductive JVal where
  | num (q : ℚ)
  | str (s : String)
deriving DecidableEq

/-- A historical record: a dict that may contain a `date` field and test
values. -/
abbrev Record := List (String × JVal)

/-- A `{"date": ..., "value": ...}` data point of `test_data`. -/
structure DataPoint where
  date : JVal
  value : ℚ
deriving DecidableEq

/-- Display form of a date value, used in `analysis_period`. -/
def jvalStr : JVal → String
  | .num q => fmtQ q
  | .str s => s

/-- Python `<` on the sort keys. Python raises `TypeError` on a mixed
number/string comparison; the model totalizes that case (numbers sort before
strings), and theorems about ordering are read on homogeneous string dates,
the only case the repository exercises. -/
def jvalLt (a b : JVal) : Bool :=
  match a, b with
  | .num x, .num y => decide (x < y)
  | .str x, .str y => strLt x y
  | .num _, .str _ => true
  | .str _, .num _ => false

/-- Stable insertion of a data point into a date-sorted list, as Python's
stable `sorted(..., key=lambda x: x["date"])` places equal keys. -/
def insertPt (x : DataPoint) : List DataPoint → List DataPoint
  | [] => [x]
  | y :: ys => if jvalLt x.date y.date then x :: y :: ys else y :: insertPt x ys

/-- `sorted(data_points, key=lambda x: x["date"])`: a stable sort by date. -/
def sortPts (pts : List DataPoint) : List DataPoint :=
  pts.foldl (fun acc x => insertPt x acc) []

/-- Append a data point to `test_data[test]`, creating the key at the end on
first insertion (Python dict insertion order). -/
def addPoint : List (String × List DataPoint) → String → DataPoint →
    List (String × List DataPoint)
  | [], t, dp => [(t, [dp])]
  | (t', ps) :: rest, t, dp =>
    if t' = t then (t', ps ++ [dp]) :: rest else (t', ps) :: addPoint rest t dp

/-- Process one record of the grouping loop: read the record's date
(defaulting to the current time `now`), then add every numeric field as an
observation of its test. -/
def addRecord (now : String) (td : List (String × List DataPoint)) (r : Record) :
    List (String × List DataPoint) :=
  let date := (r.lookup "date").getD (.str now)
  r.foldl (fun td' p =>
    match p.2 with
    | .num q => addPoint td' p.1 ⟨date, q⟩
    | .str _ => td') td

/-- The `test_data` grouping of `generate_trend_analysis`: all observations
grouped by test name across the full history. -/
def groupTests (now : String) (history : List Record) :
    List (String × List DataPoint) :=
  history.foldl (addRecord now) []

/-- One value of the `trends` dict. -/
structure TrendEntry where
  direction : String
  percent_change : ℚ
  first_value : ℚ
  last_value : ℚ
  first_date : JVal
  last_date : JVal
  data_points : ℕ
  trend_color : String
  recommendation : String
deriving DecidableEq

/-- Tests whose rising trend is flagged adverse (the inline list
`["glucose", "ldl", "creatinine"]`). -/
def adverseTests : List String := ["glucose", "ldl", "creatinine"]

/-- The `recommendations` table of `_get_trend_recommendation`. -/
def trend_recommendations : List (String × List (String × String)) :=
  [("glucose",
    [("increasing", "Blood sugar increasing. Review diet and medication."),
     ("decreasing", "Blood sugar improving. Continue current management."),
     ("stable", "Blood sugar stable. Maintain current regimen.")]),
   ("ldl",
    [("increasing", "LDL cholesterol rising. Consider diet changes or medication adjustment."),
     ("decreasing", "LDL cholesterol improving. Continue current treatment."),
     ("stable", "LDL cholesterol stable. Maintain current approach.")]),
   ("hba1c",
    [("increasing", "Long-term blood sugar control worsening. Review diabetes management."),
     ("decreasing", "Blood sugar control improving. Good progress."),
     ("stable", "Blood sugar control stable. Continue monitoring.")])]

/-- `_get_trend_recommendation`: recommendation text for a test trend. -/
def get_trend_recommendation (test_name direction : String) (_pc : ℚ) : String :=
  match (trend_recommendations.lookup test_name).bind (fun t => t.lookup direction) with
  | some s => s
  | none => "Value is " ++ direction ++ ". Discuss with healthcare provider."

/-- The `(last - first)/first × 100` percent change over a date-sorted list,
guarded to 0 when the first value is 0. -/
def pcOf (s : List DataPoint) : ℚ :=
  let first_val := (s.map DataPoint.value).headD 0
  let last_val := (s.map DataPoint.value).getLastD 0
  if first_val ≠ 0 then qmul (qdiv (qsub last_val first_val) first_val) 100 else 0

/-- The `trends[test]` entry built from the date-sorted observations of one
test (the body of the per-test loop of `generate_trend_analysis`). -/
def mkEntry (test : String) (s : List DataPoint) : TrendEntry :=
  let values := s.map DataPoint.value
  let dates := s.map DataPoint.date
  let pc := pcOf s
  let dir_color : String × String :=
    if |pc| < 5 then ("stable", "#6B7280")
    else if 0 < pc then
      ("increasing", if test ∈ adverseTests then "#EF4444" else "#10B981")
    else
      ("decreasing", if test ∈ adverseTests then "#10B981" else "#EF4444")
  { direction := dir_color.1
    percent_change := pyRound pc 1
    first_value := values.headD 0
    last_value := values.getLastD 0
    first_date := dates.headD (.str "")
    last_date := dates.getLastD (.str "")
    data_points := values.length
    trend_color := dir_color.2
    recommendation := get_trend_recommendation test dir_color.1 pc }

/-- The result of `generate_trend_analysis`: the `{"message": ...}` sentinel
for a short history, or the full report dict. -/
inductive TrendReport where
  | insufficient (message : String)
  | report (trends : List (String × TrendEntry)) (analyzed_tests : ℕ)
      (analysis_period : String) (generated_at : String)
deriving DecidableEq

/-- One step of the per-test loop: tests with at least two observations are
sorted and analyzed; the accumulator also tracks the local variable
`sorted_data`, which is only assigned inside the guarded branch. -/
def trendStep (acc : List (String × TrendEntry) × Option (List DataPoint))
    (x : String × List DataPoint) :
    List (String × TrendEntry) × Option (List DataPoint) :=
  if 2 ≤ x.2.length then
    let s := sortPts x.2
    (acc.1 ++ [(x.1, mkEntry x.1 s)], some s)
  else acc

/-- `generate_trend_analysis`: the sentinel for fewer than 2 records;
otherwise group, analyze each test with at least 2 observations, and build
the report. The final `analysis_period` reads the loop-local `sorted_data`
after the loop, a `NameError` when no test had two observations. -/
def generate_trend_analysis (now : String) (history : List Record) :
    Except String TrendReport :=
  if history.length < 2 then
    .ok (.insufficient "Insufficient historical data for trend analysis")
  else
    match (groupTests now history).foldl trendStep ([], none) with
    | (_, none) => .error "NameError"
    | (trends, some s) =>
      .ok (.report trends trends.length
        (jvalStr ((s.headD ⟨.str "", 0⟩).date) ++ " to " ++
         jvalStr ((s.getLastD ⟨.str "", 0⟩).date)) now)

/-- Whether an `Except` result is a success. -/
def isOkE {α : Type} (e : Except String α) : Bool :=
  match e with
  | .ok _ => true
  | .error _ => false

/-- The keys of a successful categorization (empty on an exception). -/
def exceptKeys (e : Except String (List (String × CategorizedResult))) : List String :=
  match e with
  | .error _ => []
  | .ok m => m.map Prod.fst

/-- A health-score result with the `calculated_at` timestamp blanked. -/
def dropScoreTime : HealthScoreResult → HealthScoreResult
  | .insufficient s t => .insufficient s t
  | .report sc st c br _ => .report sc st c br ""

/-- A risk report with the `analyzed_at` timestamp blanked. -/
def dropRiskTime (r : RiskReport) : RiskReport :=
  { r with analyzed_at := "" }

/-- A trend report with the `generated_at` timestamp blanked. -/
def dropTrendTime : TrendReport → TrendReport
  | .insufficient m => .insufficient m
  | .report t n p _ => .report t n p ""

/-! ## Theorems -/

theorem qadd_eq (a b : ℚ) : qadd a b = a + b := by
  rw [qadd, Rat.divInt_eq_div]
  push_cast
  conv_rhs => rw [← Rat.num_div_den a, ← Rat.num_div_den b,
    div_add_div _ _ (by exact_mod_cast a.den_nz) (by exact_mod_cast b.den_nz)]
  ring_nf

theorem qsub_eq (a b : ℚ) : qsub a b = a - b := by
  rw [qsub, Rat.divInt_eq_div]
  push_cast
  conv_rhs => rw [← Rat.num_div_den a, ← Rat.num_div_den b,
    div_sub_div _ _ (by exact_mod_cast a.den_nz) (by exact_mod_cast b.den_nz)]
  ring_nf

theorem qmul_eq (a b : ℚ) : qmul a b = a * b := by
  rw [qmul, Rat.divInt_eq_div]
  push_cast
  conv_rhs => rw [← Rat.num_div_den a, ← Rat.num_div_den b, div_mul_div_comm]

theorem qdiv_eq (a b : ℚ) : qdiv a b = a / b := by
  rw [qdiv, Rat.divInt_eq_div]
  push_cast
  conv_rhs => rw [← Rat.num_div_den a, ← Rat.num_div_den b]
  rw [div_div_div_eq]

theorem except_bind_ok {α β : Type} (a : α) (f : α → Except String β) :
    (Except.ok a >>= f : Except String β) = f a := rfl

theorem except_bind_error {α β : Type} (e : String) (f : α → Except String β) :
    ((Except.error e : Except String α) >>= f) = .error e := rfl

theorem except_pure_eq {α : Type} (a : α) : (pure a : Except String α) = .ok a := rfl

theorem lookup_some_mem {β : Type} {l : List (String × β)} {k : String} {b : β}
    (h : l.lookup k = some b) : b ∈ l.map Prod.snd := by
  obtain ⟨l₁, l₂, rfl, -⟩ := List.lookup_eq_some_iff.mp h
  simp

/-- Every range of the static table has a nonnegative minimum and a positive
maximum. -/
theorem table_ranges_sound {n : String} {ref : RefRange}
    (h : reference_ranges.lookup n = some ref) : 0 ≤ ref.min ∧ 0 < ref.max :=
  (by decide : ∀ r ∈ reference_ranges.map Prod.snd, 0 ≤ r.min ∧ 0 < r.max)
    ref (lookup_some_mem h)

theorem get_status_below_eq {m : ℚ} (a : ℚ) (hm : m ≠ 0) :
    get_status_below m a =
      .ok (if 30 < qmul (qdiv (qsub m a) m) 100 then "critical"
           else if 15 < qmul (qdiv (qsub m a) m) 100 then "warning"
           else "borderline") := by
  simp only [get_status_below, pyDiv, if_neg hm, except_bind_ok, except_pure_eq]
  by_cases h30 : 30 < qmul (qdiv (qsub m a) m) 100
  · simp [h30]
  · by_cases h15 : 15 < qmul (qdiv (qsub m a) m) 100 <;> simp [h30, h15]

theorem get_status_above_eq {m : ℚ} (a : ℚ) (hm : m ≠ 0) :
    get_status_above m a =
      .ok (if 30 < qmul (qdiv (qsub a m) m) 100 then "critical"
           else if 15 < qmul (qdiv (qsub a m) m) 100 then "warning"
           else "borderline") := by
  simp only [get_status_above, pyDiv, if_neg hm, except_bind_ok, except_pure_eq]
  by_cases h30 : 30 < qmul (qdiv (qsub a m) m) 100
  · simp [h30]
  · by_cases h15 : 15 < qmul (qdiv (qsub a m) m) 100 <;> simp [h30, h15]

theorem get_status_below_ne_normal {m a : ℚ} {s : String}
    (h : get_status_below m a = .ok s) : s ≠ "normal" := by
  by_cases hm : m = 0
  · simp [get_status_below, pyDiv, hm, except_bind_error] at h
  · rw [get_status_below_eq a hm] at h
    simp only [Except.ok.injEq] at h
    subst h
    split
    · decide
    · split <;> decide

theorem get_status_above_ne_normal {m a : ℚ} {s : String}
    (h : get_status_above m a = .ok s) : s ≠ "normal" := by
  by_cases hm : m = 0
  · simp [get_status_above, pyDiv, hm, except_bind_error] at h
  · rw [get_status_above_eq a hm] at h
    simp only [Except.ok.injEq] at h
    subst h
    split
    · decide
    · split <;> decide

/-- A successful deviation/status computation is either the in-range result
`(0, "normal")`, or an out-of-range result with a non-"normal" status. -/
theorem devStatus_ok_cases {ref : RefRange} {v : ℚ} {ds : ℚ × String}
    (h : devStatus ref v = .ok ds) :
    (ds.2 = "normal" ∧ ds.1 = 0 ∧ ref.min ≤ v ∧ v ≤ ref.max) ∨
    (ds.2 ≠ "normal" ∧ (v < ref.min ∨ ref.max < v)) := by
  unfold devStatus at h
  by_cases h1 : v < ref.min
  · rw [if_pos h1] at h
    right
    by_cases hm : ref.min = 0
    · simp [pyDiv, hm, except_bind_error] at h
    · simp only [pyDiv, if_neg hm, except_bind_ok] at h
      rw [get_status_below_eq v hm] at h
      simp only [except_bind_ok, except_pure_eq, Except.ok.injEq] at h
      subst h
      refine ⟨?_, Or.inl h1⟩
      split
      · simp
      · split <;> simp
  · rw [if_neg h1] at h
    by_cases h2 : ref.max < v
    · rw [if_pos h2] at h
      right
      by_cases hm : ref.max = 0
      · simp [pyDiv, hm, except_bind_error] at h
      · simp only [pyDiv, if_neg hm, except_bind_ok] at h
        rw [get_status_above_eq v hm] at h
        simp only [except_bind_ok, except_pure_eq, Except.ok.injEq] at h
        subst h
        refine ⟨?_, Or.inr h2⟩
        split
        · simp
        · split <;> simp
    · rw [if_neg h2] at h
      simp only [except_pure_eq, Except.ok.injEq] at h
      subst h
      exact Or.inl ⟨rfl, rfl, le_of_not_lt h1, le_of_not_lt h2⟩

/-- A successful deviation/status computation exists whenever the value is
nonnegative and the range maximum is positive (the table guarantees the
latter): the only failure is a division by a zero reference bound. -/
theorem devStatus_ok_of_nonneg {ref : RefRange} {v : ℚ} (hv : 0 ≤ v)
    (hmax : 0 < ref.max) : ∃ ds, devStatus ref v = .ok ds := by
  unfold devStatus
  by_cases h1 : v < ref.min
  · have hm : ref.min ≠ 0 := by
      intro h0
      rw [h0] at h1
      exact absurd hv (not_le.mpr h1)
    rw [if_pos h1]
    simp only [pyDiv, if_neg hm, except_bind_ok]
    rw [get_status_below_eq v hm]
    simp only [except_bind_ok, except_pure_eq]
    exact ⟨_, rfl⟩
  · rw [if_neg h1]
    by_cases h2 : ref.max < v
    · have hm : ref.max ≠ 0 := ne_of_gt hmax
      rw [if_pos h2]
      simp only [pyDiv, if_neg hm, except_bind_ok]
      rw [get_status_above_eq v hm]
      simp only [except_bind_ok, except_pure_eq]
      exact ⟨_, rfl⟩
    · rw [if_neg h2]
      exact ⟨_, rfl⟩

theorem pyRound_zero (d : ℕ) : pyRound 0 d = 0 := by
  have h1 : qmul 0 ((10 ^ d : ℕ) : ℚ) = 0 := by rw [qmul_eq, zero_mul]
  have h2 : roundHalfEven 0 = 0 := by decide
  rw [pyRound, h1, h2]
  rw [qdiv_eq]
  push_cast
  exact zero_div _

/-- C1: `detect_risk_factors` computes `highest_risk` with Python `max` over
the risk-level strings, which is lexicographic: on a snapshot producing a
"high" Diabetes finding and a "moderate" Kidney Disease finding it reports
"moderate", although a finding with risk_level "high" is present — the
claimed precedence high > moderate > low does not hold. -/
theorem highest_risk_lexicographic_bug_eval :
    ((detect_risk_factors "T" [("hba1c", 7), ("creatinine", Rat.divInt 3 2)] 50).detected_risks.map
        RiskFinding.risk_level = ["high", "moderate"]) ∧
    (detect_risk_factors "T" [("hba1c", 7), ("creatinine", Rat.divInt 3 2)] 50).highest_risk =
      "moderate" := by
  decide

/-- C3: with fewer than 2 records `generate_trend_analysis` returns the
"insufficient data" sentinel, but with 2 records none of whose tests has two
observations it dereferences the unassigned loop-local `sorted_data` and
raises (`NameError` in the model, `UnboundLocalError` in CPython) instead of
returning a report with an empty trends mapping. -/
theorem trend_analysis_name_error_eval :
    generate_trend_analysis "T"
        [[("date", .str "2024-01-01"), ("glucose", .num 100)],
         [("date", .str "2024-02-02"), ("ldl", .num 50)]] = .error "NameError" ∧
    generate_trend_analysis "T" [[("date", .str "2024-01-01"), ("glucose", .num 100)]] =
      .ok (.insufficient "Insufficient historical data for trend analysis") := by
  decide

/-- C2 counterexample: `categorize_lab_results` is not total on arbitrary
numeric snapshots — a negative ldl value falls below the ldl reference
minimum of 0 and the deviation computation divides by that minimum, raising
`ZeroDivisionError`. -/
theorem categorize_zero_division_counterexample :
    categorize_lab_results [("ldl", -5)] = .error "ZeroDivisionError" := by
  decide

/-- C5 counterexample: at `patient_age` exactly 60 the age adjustment
(`patient_age > 60`) does not fire: the moderate cardiovascular finding for
ldl = 140 stays "moderate", where the claim (age ≥ 60) requires "high". -/
theorem age_sixty_no_escalation :
    ((baseRisks [("ldl", 140)]).map RiskFinding.risk_level = ["moderate"]) ∧
    ((detect_risk_factors "T" [("ldl", 140)] 60).detected_risks.map
        RiskFinding.risk_level = ["moderate"]) := by
  decide

/-- C5 (amended): for every `patient_age` strictly greater than 60,
`detect_risk_factors` replaces the finding list with the pointwise
escalation of the base findings, and the escalation turns every "moderate"
finding into a "high" one with the extra age recommendation appended. -/
theorem age_over_sixty_escalates (now : String) (d : List (String × ℚ)) (age : ℤ)
    (h : 60 < age) :
    (detect_risk_factors now d age).detected_risks =
      (baseRisks d).map escalateIfModerate ∧
    ∀ f : RiskFinding, f.risk_level = "moderate" →
      (escalateIfModerate f).risk_level = "high" ∧
      (escalateIfModerate f).recommendations = f.recommendations ++ [ageMsg] := by
  constructor
  · simp only [detect_risk_factors]
    rw [if_pos h]
  · intro f hf
    simp [escalateIfModerate, hf]

/-- C5 witness: the amended escalation theorem applied at age 61 on a
snapshot producing a moderate cardiovascular finding. -/
theorem age_over_sixty_escalates_witness :
    (detect_risk_factors "T" [("ldl", 140)] 61).detected_risks =
      (baseRisks [("ldl", 140)]).map escalateIfModerate :=
  (age_over_sixty_escalates "T" [("ldl", 140)] 61 (by decide)).1

/-- C6 counterexample: a nonempty snapshot none of whose tests has a
reference range does not get the "Insufficient Data" sentinel — the code
only returns the sentinel for a literally empty snapshot, and an
unrecognized nonempty snapshot scores 0 with status "Needs Attention". -/
theorem health_score_unrecognized_not_sentinel :
    calculate_health_score "T" [("bar", 5)] ≠
      .ok (.insufficient 0 "Insufficient Data") ∧
    calculate_health_score "T" [("bar", 5)] =
      .ok (.report 0 "Needs Attention" "#EF4444" [] "T") := by
  decide

/-- C4 counterexample: `calculate_health_score` stores the clock reading in
`calculated_at`, so two invocations on the same snapshot at different times
return different results. -/
theorem health_score_differs_across_clock :
    calculate_health_score "2024-01-01T00:00:00" [("glucose", 90)] ≠
      calculate_health_score "2024-01-02T00:00:00" [("glucose", 90)] := by
  decide

/-- C8: a categorized result has status "normal" exactly when the value lies
inside the reference range, and an in-range value has deviation_percent 0. -/
theorem categorize_normal_iff_in_range (n : String) (v : ℚ) (ref : RefRange)
    (r : CategorizedResult) (href : reference_ranges.lookup n = some ref)
    (hr : categorizeOne n v = some (.ok r)) :
    (r.status = "normal" ↔ ref.min ≤ v ∧ v ≤ ref.max) ∧
    (ref.min ≤ v → v ≤ ref.max → r.deviation_percent = 0) := by
  unfold categorizeOne at hr
  rw [href] at hr
  simp only [Option.some.injEq] at hr
  cases hds : devStatus ref v with
  | error e =>
    rw [hds] at hr
    simp [Except.map] at hr
  | ok ds =>
    rw [hds] at hr
    simp only [Except.map, Except.ok.injEq] at hr
    subst hr
    rcases devStatus_ok_cases hds with ⟨hs, hd, hge, hle⟩ | ⟨hs, hout⟩
    · refine ⟨⟨fun _ => ⟨hge, hle⟩, fun _ => ?_⟩, fun _ _ => ?_⟩
      · simpa [mkCategorized] using hs
      · simp [mkCategorized, hd, pyRound_zero]
    · constructor
      · constructor
        · intro hnorm
          exact absurd (by simpa [mkCategorized] using hnorm) hs
        · rintro ⟨hge, hle⟩
          rcases hout with hlt | hlt
          · exact absurd hge (not_le.mpr hlt)
          · exact absurd hle (not_le.mpr hlt)
      · intro hge hle
        rcases hout with hlt | hlt
        · exact absurd hge (not_le.mpr hlt)
        · exact absurd hle (not_le.mpr hlt)

/-- C8 witness: the theorem at glucose = 80 in range (70, 100). -/
theorem categorize_normal_iff_in_range_witness :
    (((⟨80, "mg/dL", "Metabolic", "normal", "#10B981", "Normal", 70, 100, 0,
        "Normal fasting blood glucose level."⟩ : CategorizedResult).status = "normal") ↔
      ((70 : ℚ) ≤ 80 ∧ (80 : ℚ) ≤ 100)) ∧
    (((70 : ℚ) ≤ 80) → ((80 : ℚ) ≤ 100) →
      (⟨80, "mg/dL", "Metabolic", "normal", "#10B981", "Normal", 70, 100, 0,
        "Normal fasting blood glucose level."⟩ : CategorizedResult).deviation_percent = 0) :=
  categorize_normal_iff_in_range "glucose" 80 ⟨70, 100, "mg/dL", "Metabolic"⟩ _
    (by decide) (by decide)

/-- C7: out-of-range status tiers use strict comparisons on the deviation
magnitude (> 30 critical, > 15 warning, else borderline); a value exactly 15
percent below the minimum is borderline, and 31 percent below is critical. -/
theorem status_tier_strict_thresholds (m a : ℚ) (hm : 0 < m) :
    (get_status_below m a =
      .ok (if 30 < (m - a) / m * 100 then "critical"
           else if 15 < (m - a) / m * 100 then "warning" else "borderline")) ∧
    (get_status_above m a =
      .ok (if 30 < (a - m) / m * 100 then "critical"
           else if 15 < (a - m) / m * 100 then "warning" else "borderline")) ∧
    get_status_below m (85/100 * m) = .ok "borderline" ∧
    get_status_below m (69/100 * m) = .ok "critical" := by
  have hm' : m ≠ 0 := ne_of_gt hm
  have harith : ∀ x : ℚ, qmul (qdiv (qsub m x) m) 100 = (m - x) / m * 100 := by
    intro x
    rw [qmul_eq, qdiv_eq, qsub_eq]
  have harith2 : ∀ x : ℚ, qmul (qdiv (qsub x m) m) 100 = (x - m) / m * 100 := by
    intro x
    rw [qmul_eq, qdiv_eq, qsub_eq]
  refine ⟨?_, ?_, ?_, ?_⟩
  · rw [get_status_below_eq a hm', harith]
  · rw [get_status_above_eq a hm', harith2]
  · rw [get_status_below_eq _ hm', harith]
    have h15 : (m - 85/100 * m) / m * 100 = 15 := by
      field_simp
      ring
    rw [h15]
    norm_num
  · rw [get_status_below_eq _ hm', harith]
    have h31 : (m - 69/100 * m) / m * 100 = 31 := by
      field_simp
      ring
    rw [h31]
    norm_num

/-- C7 witness: the boundary facts at the concrete range minimum 100. -/
theorem status_tier_strict_thresholds_witness :
    get_status_below 100 (85/100 * 100) = .ok "borderline" ∧
    get_status_below 100 (69/100 * 100) = .ok "critical" :=
  ⟨(status_tier_strict_thresholds 100 0 (by norm_num)).2.2.1,
   (status_tier_strict_thresholds 100 0 (by norm_num)).2.2.2⟩

/-- C2 (amended): on snapshots whose values are all nonnegative,
`categorize_lab_results` always succeeds, and the result holds exactly the
snapshot entries whose test name has a reference range — unknown names are
silently skipped. (A negative value below a zero reference minimum raises
`ZeroDivisionError`, see the counterexample.) -/
theorem categorize_total_on_nonneg (d : List (String × ℚ))
    (h : ∀ p ∈ d, 0 ≤ p.2) :
    isOkE (categorize_lab_results d) = true ∧
    exceptKeys (categorize_lab_results d) =
      (d.filter (fun p => (reference_ranges.lookup p.1).isSome)).map Prod.fst := by
  induction d with
  | nil => exact ⟨rfl, rfl⟩
  | cons p t ih =>
    have hp : 0 ≤ p.2 := h p (List.mem_cons_self p t)
    have ht : ∀ q ∈ t, 0 ≤ q.2 := fun q hq => h q (List.mem_cons_of_mem p hq)
    obtain ⟨ih1, ih2⟩ := ih ht
    rcases p with ⟨n, v⟩
    cases hl : reference_ranges.lookup n with
    | none =>
      have hco : categorizeOne n v = none := by
        unfold categorizeOne
        rw [hl]
      simp only [categorize_lab_results, hco]
      rw [List.filter_cons]
      simp only [hl, Option.isSome_none, Bool.false_eq_true, if_false]
      exact ⟨ih1, ih2⟩
    | some ref =>
      obtain ⟨hmin, hmax⟩ := table_ranges_sound hl
      obtain ⟨ds, hds⟩ := devStatus_ok_of_nonneg (show (0 : ℚ) ≤ v from hp) hmax
      have hco : categorizeOne n v = some (.ok (mkCategorized n ref v ds)) := by
        unfold categorizeOne
        rw [hl]
        show some (Except.map (mkCategorized n ref v) (devStatus ref v)) = _
        rw [hds]
        rfl
      simp only [categorize_lab_results, hco]
      cases hct : categorize_lab_results t with
      | error e =>
        rw [hct] at ih1
        exact absurd ih1 (by simp [isOkE])
      | ok m =>
        rw [hct] at ih2
        refine ⟨by simp [isOkE, Except.map], ?_⟩
        rw [List.filter_cons]
        simp only [hl, Option.isSome_some, if_true]
        simp only [exceptKeys, Except.map, List.map_cons]
        simp only [exceptKeys] at ih2
        rw [ih2]

/-- C2 witness: the amended totality theorem at a nonnegative snapshot with
one known and one unknown test. -/
theorem categorize_total_on_nonneg_witness :
    isOkE (categorize_lab_results [("glucose", 80), ("unknown", 5)]) = true ∧
    exceptKeys (categorize_lab_results [("glucose", 80), ("unknown", 5)]) =
      (([("glucose", (80 : ℚ)), ("unknown", 5)]).filter
        (fun p => (reference_ranges.lookup p.1).isSome)).map Prod.fst :=
  categorize_total_on_nonneg [("glucose", 80), ("unknown", 5)] (by decide)

theorem categorize_unrecognized_nil (d : List (String × ℚ))
    (h : ∀ p ∈ d, reference_ranges.lookup p.1 = none) :
    categorize_lab_results d = .ok [] := by
  induction d with
  | nil => rfl
  | cons p t ih =>
    rcases p with ⟨n, v⟩
    have hco : categorizeOne n v = none := by
      unfold categorizeOne
      rw [h (n, v) (List.mem_cons_self _ t)]
    simp only [categorize_lab_results, hco]
    exact ih (fun q hq => h q (List.mem_cons_of_mem _ hq))

/-- C6 (amended): the sentinel `{score: 0, status: "Insufficient Data"}` is
returned exactly for the literally empty snapshot, and its status is not one
of the four tier labels; a nonempty snapshot with no recognized test name
instead scores 0 with the regular tier label "Needs Attention". -/
theorem health_score_empty_sentinel (now : String) :
    calculate_health_score now [] = .ok (.insufficient 0 "Insufficient Data") ∧
    ("Insufficient Data" ∉ ["Excellent", "Good", "Fair", "Needs Attention"]) ∧
    ∀ d : List (String × ℚ), d ≠ [] →
      (∀ p ∈ d, reference_ranges.lookup p.1 = none) →
      calculate_health_score now d =
        .ok (.report 0 "Needs Attention" "#EF4444" [] now) := by
  refine ⟨rfl, by decide, ?_⟩
  intro d hd hall
  have hcat := categorize_unrecognized_nil d hall
  unfold calculate_health_score
  rw [if_neg hd, hcat]
  norm_num [pyRound_zero]

/-- C6 witness: the amended theorem at the unrecognized snapshot
`{"foo": 1}`. -/
theorem health_score_empty_sentinel_witness :
    calculate_health_score "T" [("foo", 1)] =
      .ok (.report 0 "Needs Attention" "#EF4444" [] "T") :=
  (health_score_empty_sentinel "T").2.2 [("foo", 1)] (by decide) (by decide)

theorem escalate_condition (f : RiskFinding) :
    (escalateIfModerate f).condition = f.condition := by
  unfold escalateIfModerate
  split <;> rfl

theorem diabetesRisk_condition {d : List (String × ℚ)} {x : RiskFinding}
    (hx : diabetesRisk d = some x) : x.condition = "Diabetes" := by
  unfold diabetesRisk at hx
  split at hx
  · split at hx
    · injection hx with h
      rw [← h]
    · simp at hx
  · simp at hx

theorem cardioRisk_condition {d : List (String × ℚ)} {x : RiskFinding}
    (hx : cardioRisk d = some x) : x.condition = "Cardiovascular Disease" := by
  unfold cardioRisk at hx
  split at hx
  · simp at hx
  · injection hx with h
    rw [← h]

theorem kidneyRisk_condition {d : List (String × ℚ)} {x : RiskFinding}
    (hx : kidneyRisk d = some x) : x.condition = "Kidney Disease" := by
  unfold kidneyRisk at hx
  split at hx
  · split at hx
    · injection hx with h
      rw [← h]
    · simp at hx
  · simp at hx

theorem baseRisks_conditions (d : List (String × ℚ)) :
    ((baseRisks d).map RiskFinding.condition).Sublist
      ["Diabetes", "Cardiovascular Disease", "Kidney Disease"] := by
  unfold baseRisks
  rw [List.map_append, List.map_append]
  cases hd : diabetesRisk d <;> cases hc : cardioRisk d <;> cases hk : kidneyRisk d <;>
    simp only [Option.toList_some, Option.toList_none, List.map_nil, List.map_cons,
      List.nil_append, List.append_nil, List.cons_append]
  all_goals try rw [diabetesRisk_condition hd]
  all_goals try rw [cardioRisk_condition hc]
  all_goals try rw [kidneyRisk_condition hk]
  all_goals decide

/-- C10: `detect_risk_factors` returns at most one finding per condition, in
the fixed order Diabetes, Cardiovascular Disease, Kidney Disease (hence at
most three findings), and `total_risks` is the length of the finding list. -/
theorem detect_risks_at_most_one_per_condition (now : String)
    (d : List (String × ℚ)) (age : ℤ) :
    ((detect_risk_factors now d age).detected_risks.map RiskFinding.condition).Sublist
      ["Diabetes", "Cardiovascular Disease", "Kidney Disease"] ∧
    (detect_risk_factors now d age).detected_risks.length ≤ 3 ∧
    (detect_risk_factors now d age).total_risks =
      (detect_risk_factors now d age).detected_risks.length := by
  have hcond : (detect_risk_factors now d age).detected_risks.map RiskFinding.condition =
      (baseRisks d).map RiskFinding.condition := by
    unfold detect_risk_factors
    split
    · rw [List.map_map]
      exact List.map_congr_left (fun f _ => escalate_condition f)
    · rfl
  have hsub : ((detect_risk_factors now d age).detected_risks.map
      RiskFinding.condition).Sublist ["Diabetes", "Cardiovascular Disease", "Kidney Disease"] := by
    rw [hcond]
    exact baseRisks_conditions d
  refine ⟨hsub, ?_, ?_⟩
  · have := hsub.length_le
    simpa using this
  · unfold detect_risk_factors
    rfl

theorem addRecord_now_irrelevant (t₁ t₂ : String)
    (td : List (String × List DataPoint)) (r : Record)
    (hr : (r.lookup "date").isSome) :
    addRecord t₁ td r = addRecord t₂ td r := by
  unfold addRecord
  obtain ⟨v, hv⟩ := Option.isSome_iff_exists.mp hr
  rw [hv]
  rfl

theorem foldl_addRecord_now_irrelevant (t₁ t₂ : String) :
    ∀ (h : List Record) (td : List (String × List DataPoint)),
      (∀ r ∈ h, (r.lookup "date").isSome) →
      h.foldl (addRecord t₁) td = h.foldl (addRecord t₂) td := by
  intro h
  induction h with
  | nil => intro td _; rfl
  | cons r t ih =>
    intro td hall
    rw [List.foldl_cons, List.foldl_cons,
      addRecord_now_irrelevant t₁ t₂ td r (hall r (List.mem_cons_self r t))]
    exact ih _ (fun q hq => hall q (List.mem_cons_of_mem r hq))

/-- C4 (amended): with the clock reading made explicit, all three operations
are functions of their input alone except for the timestamp field they store
(`calculated_at`, `analyzed_at`, `generated_at`); for trend analysis this
additionally requires every record to carry a `date` field, since a missing
date is defaulted to the current time and then participates in grouping and
sorting. -/
theorem core_ops_deterministic_up_to_timestamp :
    (∀ t₁ t₂ : String, ∀ d : List (String × ℚ),
      (calculate_health_score t₁ d).map dropScoreTime =
      (calculate_health_score t₂ d).map dropScoreTime) ∧
    (∀ t₁ t₂ : String, ∀ d : List (String × ℚ), ∀ age : ℤ,
      dropRiskTime (detect_risk_factors t₁ d age) =
      dropRiskTime (detect_risk_factors t₂ d age)) ∧
    (∀ t₁ t₂ : String, ∀ h : List Record,
      (∀ r ∈ h, (r.lookup "date").isSome) →
      (generate_trend_analysis t₁ h).map dropTrendTime =
      (generate_trend_analysis t₂ h).map dropTrendTime) := by
  refine ⟨?_, ?_, ?_⟩
  · intro t₁ t₂ d
    unfold calculate_health_score
    by_cases hd : d = []
    · rw [if_pos hd, if_pos hd]
    · rw [if_neg hd, if_neg hd]
      cases hc : categorize_lab_results d with
      | error e => rfl
      | ok m => rfl
  · intro t₁ t₂ d age
    rfl
  · intro t₁ t₂ h hall
    unfold generate_trend_analysis
    by_cases hl : h.length < 2
    · rw [if_pos hl, if_pos hl]
    · rw [if_neg hl, if_neg hl]
      have hgroup : groupTests t₁ h = groupTests t₂ h := by
        unfold groupTests
        exact foldl_addRecord_now_irrelevant t₁ t₂ h [] hall
      rw [hgroup]
      rcases hr2 : (groupTests t₂ h).foldl trendStep ([], none) with ⟨tr, _ | s⟩ <;> rfl

/-- C4 witness: the trend-analysis part of the amended determinism theorem,
applied at two clock readings on a two-record history with explicit dates. -/
theorem core_ops_deterministic_up_to_timestamp_witness :
    (generate_trend_analysis "t1"
        [[("date", .str "2024-01-01"), ("glucose", .num 100)],
         [("date", .str "2024-02-01"), ("glucose", .num 110)]]).map dropTrendTime =
    (generate_trend_analysis "t2"
        [[("date", .str "2024-01-01"), ("glucose", .num 100)],
         [("date", .str "2024-02-01"), ("glucose", .num 110)]]).map dropTrendTime :=
  core_ops_deterministic_up_to_timestamp.2.2 "t1" "t2" _ (by decide)

theorem strLtAux_asymm : ∀ as bs : List Char, strLtAux as bs = true → strLtAux bs as = false := by
  intro as
  induction as with
  | nil =>
    intro bs h
    cases bs with
    | nil => simp [strLtAux] at h
    | cons b bs => simp [strLtAux]
  | cons a as ih =>
    intro bs h
    cases bs with
    | nil => simp [strLtAux] at h
    | cons b bs =>
      by_cases h1 : a.toNat < b.toNat
      · have h2 : ¬ b.toNat < a.toNat := by omega
        simp [strLtAux, h1, h2]
      · by_cases h2 : b.toNat < a.toNat
        · simp [strLtAux, h1, h2] at h
        · simp [strLtAux, h1, h2] at h ⊢
          exact ih bs h

theorem jvalLt_asymm : ∀ {a b : JVal}, jvalLt a b = true → jvalLt b a = false := by
  intro a b h
  cases a <;> cases b <;> simp [jvalLt, strLt] at h ⊢
  · linarith [h]
  · exact strLtAux_asymm _ _ h

theorem insertPt_perm (x : DataPoint) (l : List DataPoint) :
    (insertPt x l).Perm (x :: l) := by
  induction l with
  | nil => exact List.Perm.refl _
  | cons y ys ih =>
    rw [insertPt]
    split
    · exact List.Perm.refl _
    · exact (List.Perm.cons y ih).trans (List.Perm.swap x y ys)

theorem sortPts_perm (pts : List DataPoint) : (sortPts pts).Perm pts := by
  suffices haux : ∀ (l acc : List DataPoint),
      (l.foldl (fun acc x => insertPt x acc) acc).Perm (acc ++ l) by
    simpa [sortPts] using haux pts []
  intro l
  induction l with
  | nil => intro acc; simp
  | cons x t ih =>
    intro acc
    rw [List.foldl_cons]
    refine (ih (insertPt x acc)).trans ?_
    refine (List.Perm.append_right t (insertPt_perm x acc)).trans ?_
    exact List.perm_middle.symm

theorem insertPt_head (x : DataPoint) (l : List DataPoint) :
    (insertPt x l).head? = some x ∨ (insertPt x l).head? = l.head? := by
  cases l with
  | nil => left; rfl
  | cons y ys =>
    rw [insertPt]
    split
    · left; rfl
    · right; rfl

theorem chain'_insertPt {x : DataPoint} {l : List DataPoint}
    (h : List.Chain' (fun a b => jvalLt b.date a.date = false) l) :
    List.Chain' (fun a b => jvalLt b.date a.date = false) (insertPt x l) := by
  induction l with
  | nil => simp [insertPt]
  | cons y ys ih =>
    rw [insertPt]
    split
    · rename_i hxy
      exact List.chain'_cons.mpr ⟨jvalLt_asymm hxy, h⟩
    · rename_i hxy
      have hyx : jvalLt x.date y.date = false := by
        simpa using hxy
      obtain ⟨hyh, hys⟩ := List.chain'_cons'.mp h
      refine List.chain'_cons'.mpr ⟨?_, ih hys⟩
      intro z hz
      rcases insertPt_head x ys with hh | hh
      · rw [hh] at hz
        cases hz
        exact hyx
      · rw [hh] at hz
        exact hyh z hz

theorem chain'_sortPts (pts : List DataPoint) :
    List.Chain' (fun a b => jvalLt b.date a.date = false) (sortPts pts) := by
  suffices haux : ∀ (l acc : List DataPoint),
      List.Chain' (fun a b => jvalLt b.date a.date = false) acc →
      List.Chain' (fun a b => jvalLt b.date a.date = false)
        (l.foldl (fun acc x => insertPt x acc) acc) from
    haux pts [] (by simp)
  intro l
  induction l with
  | nil => intro acc h; exact h
  | cons x t ih =>
    intro acc h
    rw [List.foldl_cons]
    exact ih _ (chain'_insertPt h)

theorem trends_mem_of_foldl {test : String} {e : TrendEntry} :
    ∀ (td : List (String × List DataPoint))
      (acc : List (String × TrendEntry) × Option (List DataPoint)),
      (test, e) ∈ (td.foldl trendStep acc).1 →
      (test, e) ∈ acc.1 ∨
        ∃ pts, (test, pts) ∈ td ∧ 2 ≤ pts.length ∧ e = mkEntry test (sortPts pts) := by
  intro td
  induction td with
  | nil => intro acc h; exact Or.inl h
  | cons x t ih =>
    intro acc h
    rw [List.foldl_cons] at h
    rcases ih _ h with hacc | ⟨pts, hmem, hlen, he⟩
    · unfold trendStep at hacc
      split at hacc
      · rename_i hlen2
        rcases List.mem_append.mp hacc with h1 | h2
        · exact Or.inl h1
        · simp only [List.mem_singleton, Prod.mk.injEq] at h2
          obtain ⟨rfl, rfl⟩ := h2
          exact Or.inr ⟨x.2, List.mem_cons_self x t, hlen2, rfl⟩
      · exact Or.inl hacc
    · exact Or.inr ⟨pts, List.mem_cons_of_mem x hmem, hlen, he⟩

theorem addPoint_keys (td : List (String × List DataPoint)) (t : String) (dp : DataPoint) :
    (addPoint td t dp).map Prod.fst =
      if t ∈ td.map Prod.fst then td.map Prod.fst else td.map Prod.fst ++ [t] := by
  induction td with
  | nil => simp [addPoint]
  | cons p rest ih =>
    rcases p with ⟨t', ps⟩
    rw [addPoint]
    split
    · rename_i heq
      subst heq
      simp
    · rename_i hne
      simp only [List.map_cons, ih]
      by_cases hmem : t ∈ rest.map Prod.fst
      · have : t ∈ t' :: rest.map Prod.fst := List.mem_cons_of_mem t' hmem
        simp [hmem, this]
      · have hnotin : ¬ t ∈ t' :: rest.map Prod.fst := by
          intro hc
          rcases List.mem_cons.mp hc with hc1 | hc2
          · exact hne hc1.symm
          · exact hmem hc2
        simp [hmem, hnotin]

theorem addPoint_keys_nodup {td : List (String × List DataPoint)}
    (hn : (td.map Prod.fst).Nodup) (t : String) (dp : DataPoint) :
    ((addPoint td t dp).map Prod.fst).Nodup := by
  rw [addPoint_keys]
  split
  · exact hn
  · rename_i hmem
    refine List.Nodup.append hn (List.nodup_singleton t) ?_
    intro a ha hb
    rw [List.mem_singleton] at hb
    subst hb
    exact hmem ha

theorem addRecord_nodup (now : String) (td : List (String × List DataPoint))
    (r : Record) (hn : (td.map Prod.fst).Nodup) :
    ((addRecord now td r).map Prod.fst).Nodup := by
  unfold addRecord
  suffices haux : ∀ (items : List (String × JVal)) (td₀ : List (String × List DataPoint))
      (date : JVal), (td₀.map Prod.fst).Nodup →
      ((items.foldl (fun td' p =>
          match p.2 with
          | .num q => addPoint td' p.1 ⟨date, q⟩
          | .str _ => td') td₀).map Prod.fst).Nodup from
    haux r td _ hn
  intro items
  induction items with
  | nil => intro td₀ date h; exact h
  | cons p t ih =>
    intro td₀ date h
    rw [List.foldl_cons]
    cases hp2 : p.2 with
    | num q => exact ih _ date (addPoint_keys_nodup h p.1 ⟨date, q⟩)
    | str s => exact ih _ date h

theorem groupTests_keys_nodup (now : String) (h : List Record) :
    ((groupTests now h).map Prod.fst).Nodup := by
  unfold groupTests
  suffices haux : ∀ (l : List Record) (td : List (String × List DataPoint)),
      (td.map Prod.fst).Nodup → ((l.foldl (addRecord now) td).map Prod.fst).Nodup from
    haux h [] (by simp)
  intro l
  induction l with
  | nil => intro td hn; exact hn
  | cons r t ih =>
    intro td hn
    rw [List.foldl_cons]
    exact ih _ (addRecord_nodup now td r hn)

theorem lookup_eq_of_mem_nodup {β : Type} :
    ∀ {l : List (String × β)} {k : String} {b : β},
      (l.map Prod.fst).Nodup → (k, b) ∈ l → l.lookup k = some b := by
  intro l
  induction l with
  | nil =>
    intro k b _ hm
    simp at hm
  | cons p t ih =>
    intro k b hn hm
    rcases p with ⟨k', b'⟩
    simp only [List.map_cons, List.nodup_cons] at hn
    obtain ⟨hk'notin, hnt⟩ := hn
    rw [List.lookup_cons]
    rcases List.mem_cons.mp hm with heq | hmem
    · obtain ⟨rfl, rfl⟩ := Prod.mk.injEq .. |>.mp heq
      simp
    · have hkne : (k == k') = false := by
        refine beq_eq_false_iff_ne.mpr ?_
        intro hkk
        subst hkk
        exact hk'notin (List.mem_map_of_mem Prod.fst hmem)
      rw [hkne]
      exact ih hnt hmem

theorem mkEntry_direction_spec (test : String) (s : List DataPoint) :
    (mkEntry test s).percent_change = pyRound (pcOf s) 1 ∧
    ((mkEntry test s).direction = "stable" ↔ |pcOf s| < 5) ∧
    ((mkEntry test s).direction = "increasing" ↔ (¬ |pcOf s| < 5 ∧ 0 < pcOf s)) ∧
    ((mkEntry test s).direction = "decreasing" ↔ (¬ |pcOf s| < 5 ∧ pcOf s < 0)) := by
  unfold mkEntry
  by_cases h5 : |pcOf s| < 5
  · simp [h5]
  · by_cases hpos : 0 < pcOf s
    · simp [h5, hpos]
      exact le_of_lt hpos
    · have hneg : pcOf s < 0 := by
        rcases lt_trichotomy (pcOf s) 0 with h | h | h
        · exact h
        · exfalso
          apply h5
          rw [h]
          norm_num
        · exact absurd h hpos
      simp [h5, hpos, hneg]

/-- C9: every computed trend entry comes from the observations of its test,
sorted ascending by date (a stable permutation, adjacent dates
nondecreasing), stores percent_change = (last − first)/first × 100 (0 when
first = 0, rounded to 1 decimal), and its direction is "stable" iff
|percent_change| < 5, "increasing" iff not stable and positive, and
"decreasing" iff not stable and negative. -/
theorem trend_entry_sorted_and_direction (now : String) (history : List Record)
    (trends : List (String × TrendEntry)) (n : ℕ) (p g : String)
    (test : String) (e : TrendEntry) (pts : List DataPoint)
    (hgen : generate_trend_analysis now history = .ok (.report trends n p g))
    (hmem : (test, e) ∈ trends)
    (hpts : (groupTests now history).lookup test = some pts) :
    2 ≤ pts.length ∧
    e = mkEntry test (sortPts pts) ∧
    (sortPts pts).Perm pts ∧
    List.Chain' (fun a b => jvalLt b.date a.date = false) (sortPts pts) ∧
    e.percent_change = pyRound (pcOf (sortPts pts)) 1 ∧
    (e.direction = "stable" ↔ |pcOf (sortPts pts)| < 5) ∧
    (e.direction = "increasing" ↔ (¬ |pcOf (sortPts pts)| < 5 ∧ 0 < pcOf (sortPts pts))) ∧
    (e.direction = "decreasing" ↔ (¬ |pcOf (sortPts pts)| < 5 ∧ pcOf (sortPts pts) < 0)) := by
  unfold generate_trend_analysis at hgen
  split at hgen
  · simp at hgen
  · rcases hfold : (groupTests now history).foldl trendStep ([], none) with ⟨tr, os⟩
    rw [hfold] at hgen
    cases os with
    | none => simp at hgen
    | some s =>
      simp only [Except.ok.injEq, TrendReport.report.injEq] at hgen
      obtain ⟨htr, -, -, -⟩ := hgen
      subst htr
      rcases trends_mem_of_foldl (groupTests now history) ([], none)
          (by rw [hfold]; exact hmem) with habs | ⟨pts', hmem', hlen', he'⟩
      · simp at habs
      · have hlk := lookup_eq_of_mem_nodup (groupTests_keys_nodup now history) hmem'
        rw [hpts] at hlk
        obtain rfl : pts = pts' := by
          injection hlk
        subst he'
        have hspec := mkEntry_direction_spec test (sortPts pts)
        exact ⟨hlen', rfl, sortPts_perm pts, chain'_sortPts pts,
          hspec.1, hspec.2.1, hspec.2.2.1, hspec.2.2.2⟩

/-- C9 witness: the trend theorem applied to a concrete two-record glucose
history (100 then 110, a 10 percent increase), extracting the "increasing"
direction characterization. -/
theorem trend_entry_sorted_and_direction_witness :
    ((⟨"increasing", 10, 100, 110, .str "2024-01-01", .str "2024-02-01", 2, "#EF4444",
      "Blood sugar increasing. Review diet and medication."⟩ : TrendEntry).direction =
        "increasing" ↔
      (¬ |pcOf (sortPts [⟨.str "2024-01-01", 100⟩, ⟨.str "2024-02-01", 110⟩])| < 5 ∧
        0 < pcOf (sortPts [⟨.str "2024-01-01", 100⟩, ⟨.str "2024-02-01", 110⟩]))) :=
  (trend_entry_sorted_and_direction "T"
      [[("date", .str "2024-01-01"), ("glucose", .num 100)],
       [("date", .str "2024-02-01"), ("glucose", .num 110)]]
      [("glucose", ⟨"increasing", 10, 100, 110, .str "2024-01-01", .str "2024-02-01", 2,
        "#EF4444", "Blood sugar increasing. Review diet and medication."⟩)]
      1 "2024-01-01 to 2024-02-01" "T" "glucose"
      ⟨"increasing", 10, 100, 110, .str "2024-01-01", .str "2024-02-01", 2, "#EF4444",
        "Blood sugar increasing. Review diet and medication."⟩
      [⟨.str "2024-01-01", 100⟩, ⟨.str "2024-02-01", 110⟩]
      (by decide) (by decide) (by decide)).2.2.2.2.2.2.1

end MedicalAnalyzer
